import Mathlib

/-!
Verification of the SnapbackSM replica-set state machine
(`creator-node/src/snapbackSM/snapbackSM.js`).

The JavaScript source is shallowly embedded as pure Lean functions.
External collaborators (discovery provider, secondary nodes, the queue
broker, the on-chain registry) are modelled as environment records whose
fields carry the values those collaborators return, with `Except` marking
calls that may fail.  JavaScript number semantics that matter to the code
(`undefined` propagation, falsiness of `0`) are modelled explicitly on
`Option Nat`.
-/

namespace Snapback

/-- Sync operation types (source constant `SyncType`). -/
inductive SyncType
  | Manual
  | Recurring
deriving DecidableEq

/-- Base value used to filter users over a 24 hour period (source constant `ModuloBase`). -/
def ModuloBase : Nat := 24

/-- Maximum number of ms to monitor a sync operation (source constant
`MaxSyncMonitoringDurationInMs`). -/
def MaxSyncMonitoringDurationInMs : Nat := 360000

/-- Retry delay between clock-status requests during monitoring
(source constant `SyncMonitoringRetryDelayMs`). -/
def SyncMonitoringRetryDelayMs : Nat := 15000

/-- JavaScript truthiness test on an optional numeric value: both `undefined`
and `0` are falsy (`!userSecondaryClockVal` in `issueSyncRequests`). -/
def jsFalsyNum : Option Nat → Bool
  | none => true
  | some n => decide (n = 0)

/-- JavaScript `>` on possibly-undefined numbers: any comparison involving
`undefined` yields `false`. -/
def jsGtOpt : Option Nat → Option Nat → Bool
  | some a, some b => decide (b < a)
  | _, _ => false

/-- JavaScript `>=` on possibly-undefined numbers: any comparison involving
`undefined` yields `false`. -/
def jsGeOpt : Option Nat → Option Nat → Bool
  | some a, some b => decide (b ≤ a)
  | _, _ => false

/-- JavaScript `Set(strings).has(x)` where `x` may be `null` (a `null` replica
entry is never a member of the unhealthy set). -/
def jsSetHas (l : List String) : Option String → Bool
  | some x => decide (x ∈ l)
  | none => false

/-- De-duplication fingerprint: the `(syncType, userWallet, secondaryEndpoint)`
triple.  The secondary endpoint is the job's `baseURL` and may be a `null`
value in JavaScript, hence `Option String`. -/
structure Fingerprint where
  syncType : SyncType
  userWallet : String
  secondaryEndpoint : Option String
deriving DecidableEq

/-- A sync job as enqueued by `enqueueSync`: the `syncRequestParameters`
payload (`baseURL`, `data.wallet[0]`, `data.creator_node_endpoint`,
`data.sync_type`, `data.immediate`) together with the broker-assigned job id
(the `jobInfo` handle). -/
structure SyncJob where
  jobId : Nat
  wallet : String
  baseURL : Option String
  creatorNodeEndpoint : Option String
  syncType : SyncType
  immediate : Bool
deriving DecidableEq

/-- The named parameters of `enqueueSync`. -/
structure SyncParams where
  userWallet : String
  primaryEndpoint : Option String
  secondaryEndpoint : Option String
  syncType : SyncType
  immediate : Bool
deriving DecidableEq

/-- Modelled from the spec: the `SyncDeDuplicator` store.  The class lives in
`snapbackDeDuplicator.js`, which is not among the provided sources; spec 4.2
describes it as "a concurrency-safe mapping from fingerprint to pending job
handle" with operations `try_record` (insert if absent), `lookup`, and
`remove`.  Modelled as an association list from fingerprint to job id. -/
abbrev DedupStore := List (Fingerprint × Nat)

/-- Modelled from the spec: `lookup(fp)` returns the recorded handle or
nothing (`getDuplicateSyncJobInfo` in the source's call sites). -/
def dedupLookup (d : DedupStore) (fp : Fingerprint) : Option Nat :=
  (d.find? (fun e => decide (e.1 = fp))).map (fun e => e.2)

/-- Modelled from the spec: `try_record(fp, handle)` inserts a binding
(`recordSync` in the source's call sites; callers only record after a failed
lookup, so insertion is unconditional here). -/
def dedupRecord (d : DedupStore) (fp : Fingerprint) (jobId : Nat) : DedupStore :=
  (fp, jobId) :: d

/-- Modelled from the spec: `remove(fp)` erases the binding (`removeSync` in
the source's call sites). -/
def dedupRemove (d : DedupStore) (fp : Fingerprint) : DedupStore :=
  d.filter (fun e => !(decide (e.1 = fp)))

/-- The queue- and scheduler-facing state of a `SnapbackSM` instance: the two
sync queues (pending jobs, FIFO), the de-duplicator, a counter supplying fresh
broker job ids, and the current modulo slice. -/
structure SMState where
  manualSyncQueue : List SyncJob
  recurringSyncQueue : List SyncJob
  dedup : DedupStore
  nextJobId : Nat
  currentModuloSlice : Nat
deriving DecidableEq

/-- `enqueueSync` (source lines 246-289): if the de-duplicator already holds
the fingerprint, return the recorded job info and change nothing; otherwise
push a new job onto the queue selected by `syncType` and record it. -/
def enqueueSync (st : SMState) (p : SyncParams) : Nat × SMState :=
  let fp : Fingerprint := ⟨p.syncType, p.userWallet, p.secondaryEndpoint⟩
  match dedupLookup st.dedup fp with
  | some jobInfo => (jobInfo, st)
  | none =>
    let job : SyncJob :=
      ⟨st.nextJobId, p.userWallet, p.secondaryEndpoint, p.primaryEndpoint, p.syncType, p.immediate⟩
    let st1 :=
      if p.syncType = SyncType.Manual then
        { st with manualSyncQueue := st.manualSyncQueue ++ [job] }
      else
        { st with recurringSyncQueue := st.recurringSyncQueue ++ [job] }
    (st.nextJobId,
      { st1 with dedup := dedupRecord st1.dedup fp st.nextJobId, nextJobId := st.nextJobId + 1 })

/-- Body of `processSyncOperation` after the job has been pulled off the
queue: remove the fingerprint from the de-duplicator (the pending-to-active
transition), issue the sync, and re-enqueue a successor of the same type with
`immediate` defaulted to `false` when the monitor reports that an additional
sync is required.  Jobs built by `enqueueSync` always carry the four required
fields, so the source's `isValidSyncJobData` guard always passes here. -/
def runSyncJob (selfEndpoint : String) (additionalSyncRequired : Bool)
    (syncType : SyncType) (job : SyncJob) (st : SMState) : SMState :=
  let st2 := { st with dedup := dedupRemove st.dedup ⟨syncType, job.wallet, job.baseURL⟩ }
  if additionalSyncRequired then
    (enqueueSync st2 ⟨job.wallet, some selfEndpoint, job.baseURL, syncType, false⟩).2
  else st2

/-- `processSyncOperation` (source lines 922-979) composed with the broker's
pending-to-active transition: the worker pulls the job at the front of the
queue for its sync type (FIFO) and runs it.  `additionalSyncRequired` is the
outcome of the completion monitor (`additionalSyncIsRequired`), passed as a
parameter here and modelled separately. -/
def processSyncOperation (selfEndpoint : String) (additionalSyncRequired : Bool)
    (st : SMState) (syncType : SyncType) : SMState :=
  match syncType with
  | SyncType.Manual =>
    match st.manualSyncQueue with
    | [] => st
    | job :: rest =>
      runSyncJob selfEndpoint additionalSyncRequired SyncType.Manual job
        { st with manualSyncQueue := rest }
  | SyncType.Recurring =>
    match st.recurringSyncQueue with
    | [] => st
    | job :: rest =>
      runSyncJob selfEndpoint additionalSyncRequired SyncType.Recurring job
        { st with recurringSyncQueue := rest }

/-- Outcome of one clock-status poll of the secondary during sync monitoring:
a transport error, or the reported `clockValue`. -/
inductive PollResult
  | transportError
  | clockValue (secondaryClockValue : Nat)
deriving DecidableEq

/-- `additionalSyncIsRequired` (source lines 863-913).  The poll list holds
the outcomes of the clock-status requests that fit before the
`MaxSyncMonitoringDurationInMs` deadline; the list ending corresponds to the
deadline expiring.  Transport errors are logged and polling continues.  A
sample more than `maxExportClockValueRange` behind the primary stops
monitoring with `true`; a sample at or above the primary clock stops it with
`false`; the deadline expiring leaves the initial `true`. -/
def additionalSyncIsRequired (primaryClockValue maxExportClockValueRange : Nat) :
    List PollResult → Bool
  | [] => true
  | PollResult.transportError :: rest =>
    additionalSyncIsRequired primaryClockValue maxExportClockValueRange rest
  | PollResult.clockValue s :: rest =>
    if s + maxExportClockValueRange < primaryClockValue then true
    else if primaryClockValue ≤ s then false
    else additionalSyncIsRequired primaryClockValue maxExportClockValueRange rest

/-- An entry of `potentialSyncRequests`: a user (`wallet`) paired with the
healthy secondary (`endpoint`) a sync may be issued to. -/
structure PotentialSyncRequest where
  wallet : String
  endpoint : String
deriving DecidableEq

/-- The record returned by `issueSyncRequests`. -/
structure SyncIssuanceResult where
  numSyncRequestsRequired : Nat
  numSyncRequestsIssued : Nat
  syncRequestErrors : List String
deriving DecidableEq

/-- The `syncRequired` decision of `issueSyncRequests` (source line 613):
`!userSecondaryClockVal || (userPrimaryClockVal > userSecondaryClockVal)`,
with JavaScript semantics on `undefined` and `0`. -/
def syncIsRequired (userPrimaryClockVal userSecondaryClockVal : Option Nat) : Bool :=
  jsFalsyNum userSecondaryClockVal || jsGtOpt userPrimaryClockVal userSecondaryClockVal

/-- One iteration of the per-user loop of `issueSyncRequests` (source lines
604-630).  `enqueueFails` models the broker rejecting the enqueue, in which
case the per-user catch pushes an error message and the issued counter is not
incremented. -/
def issueSyncRequestsStep (enqueueFails : String → String → Bool)
    (userPrimaryClockValues : String → Option Nat)
    (secondaryClockStatuses : String → String → Option Nat)
    (selfEndpoint : String) (acc : SyncIssuanceResult × SMState)
    (user : PotentialSyncRequest) : SyncIssuanceResult × SMState :=
  let res := acc.1
  let st := acc.2
  let userPrimaryClockVal := userPrimaryClockValues user.wallet
  let userSecondaryClockVal := secondaryClockStatuses user.endpoint user.wallet
  if syncIsRequired userPrimaryClockVal userSecondaryClockVal then
    if enqueueFails user.wallet user.endpoint then
      ({ res with
          numSyncRequestsRequired := res.numSyncRequestsRequired + 1,
          syncRequestErrors := res.syncRequestErrors ++ [user.wallet] }, st)
    else
      ({ res with
          numSyncRequestsRequired := res.numSyncRequestsRequired + 1,
          numSyncRequestsIssued := res.numSyncRequestsIssued + 1 },
        (enqueueSync st
          ⟨user.wallet, some selfEndpoint, some user.endpoint, SyncType.Recurring, false⟩).2)
  else acc

/-- `issueSyncRequests` (source lines 592-633): walk the potential sync
requests, counting required and issued syncs and collecting per-user errors.
Recurring syncs are enqueued with this node as source and `immediate` left at
its `false` default. -/
def issueSyncRequests (enqueueFails : String → String → Bool)
    (userPrimaryClockValues : String → Option Nat)
    (secondaryClockStatuses : String → String → Option Nat)
    (selfEndpoint : String) (users : List PotentialSyncRequest)
    (st : SMState) : SyncIssuanceResult × SMState :=
  users.foldl
    (issueSyncRequestsStep enqueueFails userPrimaryClockValues secondaryClockStatuses selfEndpoint)
    (⟨0, 0, []⟩, st)

/-- A user record as returned by the peer-set manager (spec 3: secondaries may
be absent for incomplete replica sets; the source also tolerates an absent
primary via `filter(Boolean)`). -/
structure NodeUser where
  user_id : Nat
  wallet : String
  primary : Option String
  secondary1 : Option String
  secondary2 : Option String
deriving DecidableEq

/-- An entry of `requiredUpdateReplicaSetOps`: the user together with the
unhealthy replicas recorded for it. -/
structure RequiredUpdateReplicaSetOp where
  user : NodeUser
  unhealthyReplicas : List String
deriving DecidableEq

/-- The per-user planning step of `processStateMachineOperation` (source lines
696-727).  When this node is the user's primary, each present secondary is
classified as unhealthy or as a potential sync target; otherwise the present
replicas other than this node are classified for reconfiguration only. -/
def planUser (selfEndpoint : String) (unhealthyPeers : List String) (u : NodeUser) :
    RequiredUpdateReplicaSetOp × List PotentialSyncRequest :=
  if u.primary = some selfEndpoint then
    let secondaries := ([u.secondary1, u.secondary2]).filterMap id
    ⟨⟨u, secondaries.filter (fun s => decide (s ∈ unhealthyPeers))⟩,
      (secondaries.filter (fun s => !(decide (s ∈ unhealthyPeers)))).map
        (fun s => ⟨u.wallet, s⟩)⟩
  else
    let replicas :=
      (([u.primary, u.secondary1, u.secondary2]).filterMap id).filter
        (fun r => !(decide (r = selfEndpoint)))
    ⟨⟨u, replicas.filter (fun r => decide (r ∈ unhealthyPeers))⟩, []⟩

/-- The planning loop over all node users, accumulating
`requiredUpdateReplicaSetOps` and `potentialSyncRequests` in order. -/
def planUsers (selfEndpoint : String) (unhealthyPeers : List String)
    (nodeUsers : List NodeUser) :
    List RequiredUpdateReplicaSetOp × List PotentialSyncRequest :=
  ⟨nodeUsers.map (fun u => (planUser selfEndpoint unhealthyPeers u).1),
    nodeUsers.flatMap (fun u => (planUser selfEndpoint unhealthyPeers u).2)⟩

/-- `sliceUsers` (source lines 1013-1017): keep the users whose id falls in
the current modulo slice. -/
def sliceUsers (currentModuloSlice : Nat) (nodeUsers : List NodeUser) : List NodeUser :=
  nodeUsers.filter (fun u => decide (u.user_id % ModuloBase = currentModuloSlice))

/-- The candidate replica set returned by
`ServiceProvider.autoSelectCreatorNodes`: its `primary` and the first two
entries of its `secondaries` array. -/
structure RandomReplicaSet where
  primary : String
  secondary1 : String
  secondary2 : String
deriving DecidableEq

/-- The `issueUpdateReplicaSetOpPhases` of the source. -/
inductive Phase
  | autoselectCreatorNodes
  | enqueueSyncs
  | fetchClockValues
  | updateUrsmReplicaSet
deriving DecidableEq

/-- The `this.log` events emitted inside `issueUpdateReplicaSetOp`: the entry
log (source line 292) and the per-branch reconfiguration log (source lines
342, 365, 411).  `opFailure` is the event that logging a caught error would
emit; it is part of the observation vocabulary so that the absence of failure
logging is expressible. -/
inductive LogEvent
  | opStart (userId : Nat) (wallet : String)
  | reconfigTo (userId : Nat) (newPrimary newSecondary1 newSecondary2 : Option String)
  | opFailure (userId : Nat) (phase : Phase)
deriving DecidableEq

/-- Whether a log event records a failure. -/
def isFailureLog : LogEvent → Bool
  | LogEvent.opFailure _ _ => true
  | _ => false

/-- Environment of one `issueUpdateReplicaSetOp` call: the collaborator
results and failure switches for each phase. -/
structure ReconfigEnv where
  autoselect : Except String RandomReplicaSet
  clockValues : Except String (String → Option Nat)
  endpointToSPIdMap : String → Option Nat
  enqueueFailsAt : Option String → Bool
  registryFails : Bool

/-- Result of one `issueUpdateReplicaSetOp` call: the mutated queue state, the
registry write if one was committed (user id and the three service-provider
ids, `undefined` map lookups included), the log trace, and the error the empty
catch block swallowed, if any (tagged with the `phase` variable). -/
structure ReconfigResult where
  st : SMState
  registryWrite : Option (Nat × Option Nat × Option Nat × Option Nat)
  logs : List LogEvent
  errorSwallowed : Option Phase

/-- The consecutive awaited `enqueueSync` calls of one branch of
`issueUpdateReplicaSetOp`: all Manual and `immediate=true`.  A broker failure
aborts the remaining calls (the exception propagates to the catch block) while
the earlier enqueues persist. -/
def tryEnqueueSyncs (enqueueFailsAt : Option String → Bool) (wallet : String)
    (source : Option String) (targets : List (Option String)) (st : SMState) :
    SMState × Bool :=
  match targets with
  | [] => (st, false)
  | t :: rest =>
    if enqueueFailsAt t then (st, true)
    else
      tryEnqueueSyncs enqueueFailsAt wallet source rest
        (enqueueSync st ⟨wallet, source, t, SyncType.Manual, true⟩).2

/-- The `UPDATE_URSM_REPLICA_SET` phase (source lines 414-420): when no branch
assigned `newReplicaSetSPIds`, indexing the undefined value throws (swallowed
by the catch); otherwise the registry write happens unless the on-chain call
fails. -/
def registryStep (env : ReconfigEnv) (userId : Nat)
    (spIds : Option (Option Nat × Option Nat × Option Nat)) (st : SMState)
    (logs : List LogEvent) : ReconfigResult :=
  match spIds with
  | none => ⟨st, none, logs, some Phase.updateUrsmReplicaSet⟩
  | some (a, b, c) =>
    if env.registryFails then ⟨st, none, logs, some Phase.updateUrsmReplicaSet⟩
    else ⟨st, some (userId, a, b, c), logs, none⟩

/-- `issueUpdateReplicaSetOp` (source lines 291-424).  The whole body runs
inside `try` with an empty `catch`, so any error leaves the function normally
with the state mutated so far and nothing logged about the failure. -/
def issueUpdateReplicaSetOp (env : ReconfigEnv) (userId : Nat) (wallet : String)
    (primary secondary1 secondary2 : Option String) (unhealthyReplicas : List String)
    (st : SMState) : ReconfigResult :=
  let logs := [LogEvent.opStart userId wallet]
  match env.autoselect with
  | Except.error _ => ⟨st, none, logs, some Phase.autoselectCreatorNodes⟩
  | Except.ok rrs =>
    let currentReplicaSet : List (Option String) := [primary, secondary1, secondary2]
    let healthyReplicas := currentReplicaSet.filter (fun r => !(jsSetHas unhealthyReplicas r))
    if healthyReplicas.length = 0 then
      let spIds :=
        some (env.endpointToSPIdMap rrs.primary, env.endpointToSPIdMap rrs.secondary1,
          env.endpointToSPIdMap rrs.secondary2)
      match tryEnqueueSyncs env.enqueueFailsAt wallet primary
          [some rrs.primary, some rrs.secondary1, some rrs.secondary2] st with
      | (st1, true) => ⟨st1, none, logs, some Phase.enqueueSyncs⟩
      | (st1, false) =>
        registryStep env userId spIds st1
          (logs ++ [LogEvent.reconfigTo userId (some rrs.primary) (some rrs.secondary1)
            (some rrs.secondary2)])
    else if healthyReplicas.length = 1 then
      let spIds :=
        some (primary.bind env.endpointToSPIdMap, env.endpointToSPIdMap rrs.primary,
          env.endpointToSPIdMap rrs.secondary1)
      match tryEnqueueSyncs env.enqueueFailsAt wallet primary
          [some rrs.primary, some rrs.secondary1] st with
      | (st1, true) => ⟨st1, none, logs, some Phase.enqueueSyncs⟩
      | (st1, false) =>
        registryStep env userId spIds st1
          (logs ++ [LogEvent.reconfigTo userId primary (some rrs.primary)
            (some rrs.secondary1)])
    else if healthyReplicas.length = 2 then
      match env.clockValues with
      | Except.error _ => ⟨st, none, logs, some Phase.fetchClockValues⟩
      | Except.ok endpointToClockMap =>
        let h0 := (healthyReplicas.get? 0).join
        let h1 := (healthyReplicas.get? 1).join
        let newPrimary :=
          if jsGeOpt (h0.bind endpointToClockMap) (h1.bind endpointToClockMap) then h0 else h1
        let newSecondary :=
          if jsGeOpt (h0.bind endpointToClockMap) (h1.bind endpointToClockMap) then h1 else h0
        let spIds :=
          some (newPrimary.bind env.endpointToSPIdMap, newSecondary.bind env.endpointToSPIdMap,
            env.endpointToSPIdMap rrs.primary)
        match tryEnqueueSyncs env.enqueueFailsAt wallet newPrimary
            [newSecondary, some rrs.primary] st with
        | (st1, true) => ⟨st1, none, logs, some Phase.enqueueSyncs⟩
        | (st1, false) =>
          registryStep env userId spIds st1
            (logs ++ [LogEvent.reconfigTo userId newPrimary newSecondary (some rrs.primary)])
    else
      registryStep env userId none st logs

/-- Environment of one `processStateMachineOperation` iteration. -/
structure IterEnv where
  selfEndpoint : String
  nodeUsers : Except String (List NodeUser)
  unhealthyPeers : Except String (List String)
  primaryClocks : Except String (String → Option Nat)
  secondaryClocks : Except String (String → String → Option Nat)
  syncEnqueueFails : String → String → Bool
  reconfigEnv : Nat → ReconfigEnv

/-- The sequential `issueUpdateReplicaSetOp` loop of the iteration (source
lines 807-811).  Each call swallows its own errors, so the loop visits every
op. -/
def runReplicaSetOps (env : IterEnv) (ops : List RequiredUpdateReplicaSetOp)
    (st : SMState) : SMState :=
  ops.foldl
    (fun s op =>
      (issueUpdateReplicaSetOp (env.reconfigEnv op.user.user_id) op.user.user_id
        op.user.wallet op.user.primary op.user.secondary1 op.user.secondary2
        op.unhealthyReplicas s).st)
    st

/-- `processStateMachineOperation` (source lines 643-855).  An error at the
user-listing, health-probing, clock-batching or primary-clock stage, or the
`syncRequestErrors.length > numSyncRequestsIssued` check failing, jumps to the
outer catch, which only logs: the state mutated so far is kept and the modulo
slice is left unchanged, because the slice increment (source lines 828-830)
sits inside the `try` block after all the stages. -/
def processStateMachineOperation (env : IterEnv) (st : SMState) : SMState :=
  match env.nodeUsers with
  | Except.error _ => st
  | Except.ok nodeUsers0 =>
    let nodeUsers := sliceUsers st.currentModuloSlice nodeUsers0
    match env.unhealthyPeers with
    | Except.error _ => st
    | Except.ok unhealthyPeers =>
      let plan := planUsers env.selfEndpoint unhealthyPeers nodeUsers
      match env.secondaryClocks with
      | Except.error _ => st
      | Except.ok secondaryClockMap =>
        match env.primaryClocks with
        | Except.error _ => st
        | Except.ok primaryClockMap =>
          let r := issueSyncRequests env.syncEnqueueFails primaryClockMap secondaryClockMap
            env.selfEndpoint plan.2 st
          if r.1.syncRequestErrors.length > r.1.numSyncRequestsIssued then r.2
          else
            let st2 := runReplicaSetOps env plan.1 r.2
            { st2 with currentModuloSlice := (st2.currentModuloSlice + 1) % ModuloBase }

/-- Whether an iteration reaches the slice increment: every fallible stage
succeeded and the sync-issuance error check passed. -/
def iterationCompletes (env : IterEnv) (st : SMState) : Bool :=
  match env.nodeUsers with
  | Except.error _ => false
  | Except.ok nodeUsers0 =>
    match env.unhealthyPeers with
    | Except.error _ => false
    | Except.ok unhealthyPeers =>
      match env.secondaryClocks with
      | Except.error _ => false
      | Except.ok secondaryClockMap =>
        match env.primaryClocks with
        | Except.error _ => false
        | Except.ok primaryClockMap =>
          let nodeUsers := sliceUsers st.currentModuloSlice nodeUsers0
          let plan := planUsers env.selfEndpoint unhealthyPeers nodeUsers
          let r := issueSyncRequests env.syncEnqueueFails primaryClockMap secondaryClockMap
            env.selfEndpoint plan.2 st
          !(decide (r.1.syncRequestErrors.length > r.1.numSyncRequestsIssued))

/-- All pending sync jobs, across both queues. -/
def pendingJobs (st : SMState) : List SyncJob :=
  st.manualSyncQueue ++ st.recurringSyncQueue

/-- The fingerprint of a pending job. -/
def jobFingerprint (j : SyncJob) : Fingerprint :=
  ⟨j.syncType, j.wallet, j.baseURL⟩

/-- The fingerprints of all pending jobs. -/
def pendingFingerprints (st : SMState) : List Fingerprint :=
  (pendingJobs st).map jobFingerprint

/-- Number of pending jobs carrying a given fingerprint. -/
def pendingCount (st : SMState) (fp : Fingerprint) : Nat :=
  (pendingFingerprints st).count fp

/-- The de-duplication invariant: pending fingerprints are pairwise distinct,
the de-duplicator holds exactly the fingerprints of pending jobs, and each
queue holds only jobs of its own sync type. -/
def SMInv (st : SMState) : Prop :=
  (pendingFingerprints st).Nodup ∧
  (∀ fp, (dedupLookup st.dedup fp).isSome ↔ fp ∈ pendingFingerprints st) ∧
  (∀ j ∈ st.manualSyncQueue, j.syncType = SyncType.Manual) ∧
  (∀ j ∈ st.recurringSyncQueue, j.syncType = SyncType.Recurring)

/-- A reconfiguration environment whose collaborators all fail; used to
exercise error paths on concrete inputs. -/
def failingReconfigEnv : ReconfigEnv :=
  ⟨Except.error "autoselect failed", Except.error "clock fetch failed",
    fun _ => none, fun _ => true, true⟩

/-- Concrete iteration environment for claim C2 in which listing the node's
users fails (a `DataFetchError`). -/
def envC2 : IterEnv :=
  { selfEndpoint := "self",
    nodeUsers := Except.error "discovery provider unreachable",
    unhealthyPeers := Except.ok [],
    primaryClocks := Except.ok (fun _ => none),
    secondaryClocks := Except.ok (fun _ _ => none),
    syncEnqueueFails := fun _ _ => false,
    reconfigEnv := fun _ => failingReconfigEnv }

/-- Concrete machine state for claim C2: empty queues, slice 5. -/
def stC2 : SMState := ⟨[], [], [], 0, 5⟩

/-- Concrete iteration environment for claim C9's witness: every stage
succeeds and there are no users in the slice, so zero syncs are issued and
zero errors occur. -/
def envC9 : IterEnv :=
  { selfEndpoint := "self",
    nodeUsers := Except.ok [],
    unhealthyPeers := Except.ok [],
    primaryClocks := Except.ok (fun _ => none),
    secondaryClocks := Except.ok (fun _ _ => none),
    syncEnqueueFails := fun _ _ => false,
    reconfigEnv := fun _ => failingReconfigEnv }

/-- Concrete machine state for claim C9's witness: empty queues, slice 3. -/
def stC9 : SMState := ⟨[], [], [], 0, 3⟩

/-- Concrete reconfiguration environment for claim C8's counterexample:
candidate selection and sync enqueues succeed, the registry write fails. -/
def envC8cex : ReconfigEnv :=
  { autoselect := Except.ok ⟨"r0", "r1", "r2"⟩,
    clockValues := Except.ok (fun _ => none),
    endpointToSPIdMap := fun _ => some 1,
    enqueueFailsAt := fun _ => false,
    registryFails := true }

/-- Concrete machine state for claim C8's counterexample. -/
def stC8 : SMState := ⟨[], [], [], 0, 0⟩

/-- Concrete iteration environment for claim C8's witness: all stages before
the replica-set loop succeed, while every per-user reconfiguration
environment fails at every phase. -/
def envC8w : IterEnv :=
  { selfEndpoint := "self",
    nodeUsers := Except.ok [],
    unhealthyPeers := Except.ok [],
    primaryClocks := Except.ok (fun _ => none),
    secondaryClocks := Except.ok (fun _ _ => none),
    syncEnqueueFails := fun _ _ => false,
    reconfigEnv := fun _ => failingReconfigEnv }

/-- Concrete machine state for claim C8's witness: empty queues, slice 2. -/
def stC8w : SMState := ⟨[], [], [], 0, 2⟩

/-- Concrete machine state for claim C1's counterexample. -/
def stC1 : SMState := ⟨[], [], [], 0, 0⟩

/-- Concrete machine state for claim C1's witness. -/
def stC1w : SMState := ⟨[], [], [], 0, 0⟩

/-- Concrete machine state for claim C6's witness: the de-duplicator already
holds the fingerprint `(Manual, "w", "sec")` with handle 42. -/
def stC6 : SMState := ⟨[], [], [(⟨SyncType.Manual, "w", some "sec"⟩, 42)], 43, 0⟩

/-- Concrete sync parameters for claim C6's witness. -/
def pC6 : SyncParams := ⟨"w", some "p", some "sec", SyncType.Manual, true⟩

/-- Concrete machine state for claim C3's witness. -/
def stC3 : SMState := ⟨[], [], [], 0, 0⟩

/-- Concrete reconfiguration environment for claim C7's witness. -/
def envC7 : ReconfigEnv :=
  { autoselect := Except.ok ⟨"r0", "r1", "r2"⟩,
    clockValues := Except.ok (fun _ => none),
    endpointToSPIdMap := fun e =>
      if e = "p" then some 10
      else if e = "r0" then some 20
      else if e = "r1" then some 30
      else none,
    enqueueFailsAt := fun _ => false,
    registryFails := false }

/-- Concrete machine state for claim C7's witness. -/
def stC7 : SMState := ⟨[], [], [], 0, 0⟩

/-- Concrete clock map for claim C4's witness: survivor `pp` has clock 5,
survivor `ss` has clock 3. -/
def clocksC4 : String → Option Nat := fun e =>
  if e = "pp" then some 5 else if e = "ss" then some 3 else none

/-- Concrete reconfiguration environment for claim C4's witness. -/
def envC4 : ReconfigEnv :=
  { autoselect := Except.ok ⟨"r0", "r1", "r2"⟩,
    clockValues := Except.ok clocksC4,
    endpointToSPIdMap := fun e =>
      if e = "pp" then some 1
      else if e = "ss" then some 2
      else if e = "r0" then some 3
      else none,
    enqueueFailsAt := fun _ => false,
    registryFails := false }

/-- Concrete machine state for claim C4's witness. -/
def stC4 : SMState := ⟨[], [], [], 0, 0⟩

/-- Concrete sync parameters for claim C3's witness. -/
def pC3 : SyncParams := ⟨"w", some "p", some "s", SyncType.Manual, true⟩

theorem dedupLookup_nil (fp : Fingerprint) : dedupLookup [] fp = none := rfl

theorem dedupLookup_record (d : DedupStore) (fp fp' : Fingerprint) (n : Nat) :
    dedupLookup (dedupRecord d fp n) fp' =
      if fp' = fp then some n else dedupLookup d fp' := by
  by_cases h : fp' = fp
  · subst h
    simp [dedupLookup, dedupRecord, List.find?]
  · have h2 : ¬ fp = fp' := fun hh => h hh.symm
    simp [dedupLookup, dedupRecord, List.find?, h, h2]

theorem dedupLookup_remove (d : DedupStore) (fp fp' : Fingerprint) :
    dedupLookup (dedupRemove d fp) fp' =
      if fp' = fp then none else dedupLookup d fp' := by
  induction d with
  | nil =>
    simp [dedupLookup, dedupRemove]
  | cons e rest ih =>
    by_cases he : e.1 = fp
    · have : dedupRemove (e :: rest) fp = dedupRemove rest fp := by
        simp [dedupRemove, he]
      rw [this, ih]
      by_cases h' : fp' = fp
      · simp [h']
      · have h2 : ¬ e.1 = fp' := by
          rw [he]; exact fun hh => h' hh.symm
        simp [h', dedupLookup, List.find?, h2]
    · have : dedupRemove (e :: rest) fp = e :: dedupRemove rest fp := by
        simp [dedupRemove, he]
      rw [this]
      by_cases h2 : e.1 = fp'
      · have h' : ¬ fp' = fp := by
          rw [← h2]; exact fun hh => he hh
        simp [dedupLookup, List.find?, h2, h']
      · simp only [dedupLookup, List.find?, h2]
        simpa [dedupLookup] using ih

theorem enqueueSync_dup (st : SMState) (p : SyncParams) (j : Nat)
    (h : dedupLookup st.dedup ⟨p.syncType, p.userWallet, p.secondaryEndpoint⟩ = some j) :
    enqueueSync st p = (j, st) := by
  simp [enqueueSync, h]

theorem enqueueSync_fresh_manual (st : SMState) (p : SyncParams)
    (ht : p.syncType = SyncType.Manual)
    (h : dedupLookup st.dedup ⟨p.syncType, p.userWallet, p.secondaryEndpoint⟩ = none) :
    enqueueSync st p = (st.nextJobId,
      { manualSyncQueue := st.manualSyncQueue ++
          [⟨st.nextJobId, p.userWallet, p.secondaryEndpoint, p.primaryEndpoint,
            p.syncType, p.immediate⟩],
        recurringSyncQueue := st.recurringSyncQueue,
        dedup := dedupRecord st.dedup ⟨p.syncType, p.userWallet, p.secondaryEndpoint⟩
          st.nextJobId,
        nextJobId := st.nextJobId + 1,
        currentModuloSlice := st.currentModuloSlice }) := by
  rw [ht] at h
  simp [enqueueSync, h, ht]

theorem enqueueSync_fresh_recurring (st : SMState) (p : SyncParams)
    (ht : p.syncType = SyncType.Recurring)
    (h : dedupLookup st.dedup ⟨p.syncType, p.userWallet, p.secondaryEndpoint⟩ = none) :
    enqueueSync st p = (st.nextJobId,
      { manualSyncQueue := st.manualSyncQueue,
        recurringSyncQueue := st.recurringSyncQueue ++
          [⟨st.nextJobId, p.userWallet, p.secondaryEndpoint, p.primaryEndpoint,
            p.syncType, p.immediate⟩],
        dedup := dedupRecord st.dedup ⟨p.syncType, p.userWallet, p.secondaryEndpoint⟩
          st.nextJobId,
        nextJobId := st.nextJobId + 1,
        currentModuloSlice := st.currentModuloSlice }) := by
  rw [ht] at h
  simp [enqueueSync, h, ht]

theorem enqueueSync_slice (st : SMState) (p : SyncParams) :
    ((enqueueSync st p).2).currentModuloSlice = st.currentModuloSlice := by
  cases h : dedupLookup st.dedup ⟨p.syncType, p.userWallet, p.secondaryEndpoint⟩ with
  | none =>
    by_cases ht : p.syncType = SyncType.Manual
    · rw [ht] at h
      simp [enqueueSync, h, ht]
    · simp [enqueueSync, h, ht]
  | some j => simp [enqueueSync, h]

theorem tryEnqueueSyncs_slice (f : Option String → Bool) (w : String) (src : Option String) :
    ∀ (targets : List (Option String)) (st : SMState),
      ((tryEnqueueSyncs f w src targets st).1).currentModuloSlice = st.currentModuloSlice := by
  intro targets
  induction targets with
  | nil => intro st; rfl
  | cons t rest ih =>
    intro st
    cases h : f t with
    | true => simp [tryEnqueueSyncs, h]
    | false =>
      rw [tryEnqueueSyncs]
      simp only [h, Bool.false_eq_true, if_false]
      rw [ih]
      exact enqueueSync_slice st _

theorem registryStep_st (env : ReconfigEnv) (userId : Nat)
    (spIds : Option (Option Nat × Option Nat × Option Nat)) (st : SMState)
    (logs : List LogEvent) : (registryStep env userId spIds st logs).st = st := by
  match spIds with
  | none => rfl
  | some (a, b, c) =>
    cases h : env.registryFails <;> simp [registryStep, h]

theorem issueUpdateReplicaSetOp_slice (env : ReconfigEnv) (userId : Nat) (wallet : String)
    (primary secondary1 secondary2 : Option String) (unhealthyReplicas : List String)
    (st : SMState) :
    ((issueUpdateReplicaSetOp env userId wallet primary secondary1 secondary2
      unhealthyReplicas st).st).currentModuloSlice = st.currentModuloSlice := by
  unfold issueUpdateReplicaSetOp
  cases hA : env.autoselect with
  | error e => rfl
  | ok rrs =>
    simp only
    split
    · split
      all_goals
        rename_i st1 heq
        have hs := congrArg (fun q => q.1.currentModuloSlice) heq
        simp only at hs
        rw [tryEnqueueSyncs_slice] at hs
      · simpa using hs.symm
      · rw [registryStep_st]
        exact hs.symm
    · split
      · split
        all_goals
          rename_i st1 heq
          have hs := congrArg (fun q => q.1.currentModuloSlice) heq
          simp only at hs
          rw [tryEnqueueSyncs_slice] at hs
        · simpa using hs.symm
        · rw [registryStep_st]
          exact hs.symm
      · split
        · cases hC : env.clockValues with
          | error e => rfl
          | ok cm =>
            simp only
            split
            all_goals
              rename_i st1 heq
              have hs := congrArg (fun q => q.1.currentModuloSlice) heq
              simp only at hs
              rw [tryEnqueueSyncs_slice] at hs
            · simpa using hs.symm
            · rw [registryStep_st]
              exact hs.symm
        · simp [registryStep_st]

theorem runReplicaSetOps_slice (env : IterEnv) :
    ∀ (ops : List RequiredUpdateReplicaSetOp) (st : SMState),
      ((runReplicaSetOps env ops st)).currentModuloSlice = st.currentModuloSlice := by
  intro ops
  induction ops with
  | nil => intro st; rfl
  | cons op rest ih =>
    intro st
    have step : runReplicaSetOps env (op :: rest) st =
        runReplicaSetOps env rest
          ((issueUpdateReplicaSetOp (env.reconfigEnv op.user.user_id) op.user.user_id
            op.user.wallet op.user.primary op.user.secondary1 op.user.secondary2
            op.unhealthyReplicas st).st) := rfl
    rw [step, ih]
    exact issueUpdateReplicaSetOp_slice _ _ _ _ _ _ _ _

theorem issueSyncRequestsStep_slice (f : String → String → Bool)
    (pc : String → Option Nat) (sc : String → String → Option Nat) (self : String)
    (acc : SyncIssuanceResult × SMState) (u : PotentialSyncRequest) :
    ((issueSyncRequestsStep f pc sc self acc u).2).currentModuloSlice =
      (acc.2).currentModuloSlice := by
  unfold issueSyncRequestsStep
  by_cases h1 : syncIsRequired (pc u.wallet) (sc u.endpoint u.wallet) = true
  · by_cases h2 : f u.wallet u.endpoint = true
    · simp [h1, h2]
    · simp [h1, h2, enqueueSync_slice]
  · simp [h1]

theorem issueSyncRequests_slice (f : String → String → Bool)
    (pc : String → Option Nat) (sc : String → String → Option Nat) (self : String) :
    ∀ (users : List PotentialSyncRequest) (acc : SyncIssuanceResult × SMState),
      ((users.foldl (issueSyncRequestsStep f pc sc self) acc).2).currentModuloSlice =
        (acc.2).currentModuloSlice := by
  intro users
  induction users with
  | nil => intro acc; rfl
  | cons u rest ih =>
    intro acc
    simp only [List.foldl_cons]
    rw [ih]
    exact issueSyncRequestsStep_slice f pc sc self acc u

theorem issueSyncRequests_slice2 (f : String → String → Bool)
    (pc : String → Option Nat) (sc : String → String → Option Nat) (self : String)
    (users : List PotentialSyncRequest) (st : SMState) :
    ((issueSyncRequests f pc sc self users st).2).currentModuloSlice =
      st.currentModuloSlice := by
  unfold issueSyncRequests
  exact issueSyncRequests_slice f pc sc self users (⟨0, 0, []⟩, st)

theorem processStateMachineOperation_slice (env : IterEnv) (st : SMState) :
    (processStateMachineOperation env st).currentModuloSlice =
      if iterationCompletes env st then (st.currentModuloSlice + 1) % ModuloBase
      else st.currentModuloSlice := by
  unfold processStateMachineOperation iterationCompletes
  cases hN : env.nodeUsers with
  | error e => rfl
  | ok us =>
    cases hU : env.unhealthyPeers with
    | error e => rfl
    | ok uh =>
      cases hS : env.secondaryClocks with
      | error e => rfl
      | ok sc =>
        cases hP : env.primaryClocks with
        | error e => rfl
        | ok pc =>
          simp only
          by_cases hgt :
            (issueSyncRequests env.syncEnqueueFails pc sc env.selfEndpoint
              (planUsers env.selfEndpoint uh (sliceUsers st.currentModuloSlice us)).2
              st).1.syncRequestErrors.length >
            (issueSyncRequests env.syncEnqueueFails pc sc env.selfEndpoint
              (planUsers env.selfEndpoint uh (sliceUsers st.currentModuloSlice us)).2
              st).1.numSyncRequestsIssued
          · rw [if_pos hgt]
            simp [decide_eq_true hgt, issueSyncRequests_slice2]
          · rw [if_neg hgt]
            simp [decide_eq_false hgt, runReplicaSetOps_slice, issueSyncRequests_slice2]

theorem iterationCompletes_ok (env : IterEnv) (st : SMState) (us : List NodeUser)
    (uh : List String) (pc : String → Option Nat) (sc : String → String → Option Nat)
    (hN : env.nodeUsers = Except.ok us) (hU : env.unhealthyPeers = Except.ok uh)
    (hS : env.secondaryClocks = Except.ok sc) (hP : env.primaryClocks = Except.ok pc) :
    iterationCompletes env st =
      !(decide ((issueSyncRequests env.syncEnqueueFails pc sc env.selfEndpoint
          (planUsers env.selfEndpoint uh (sliceUsers st.currentModuloSlice us)).2
          st).1.syncRequestErrors.length >
        (issueSyncRequests env.syncEnqueueFails pc sc env.selfEndpoint
          (planUsers env.selfEndpoint uh (sliceUsers st.currentModuloSlice us)).2
          st).1.numSyncRequestsIssued)) := by
  unfold iterationCompletes
  rw [hN, hU, hS, hP]

/-- C2 (amended): the modulo slice advances by exactly one,
`(slice + 1) % 24`, precisely when the iteration completes all its stages;
when any stage aborts the iteration (user listing, health probing, clock
batching, primary clock read, or the sync-issuance error check), the slice is
left unchanged, because the increment sits inside the `try` block after all
stages. -/
theorem C2_slice_advance_amended (env : IterEnv) (st : SMState) :
    (processStateMachineOperation env st).currentModuloSlice =
      if iterationCompletes env st then (st.currentModuloSlice + 1) % ModuloBase
      else st.currentModuloSlice :=
  processStateMachineOperation_slice env st

/-- C2 counterexample: when listing the node's users fails, the iteration
aborts and the modulo slice does not advance, contradicting the claim that
the slice advances by exactly one after every iteration, errors included. -/
theorem C2_counterexample :
    (processStateMachineOperation envC2 stC2).currentModuloSlice =
      stC2.currentModuloSlice ∧
    stC2.currentModuloSlice ≠ (stC2.currentModuloSlice + 1) % ModuloBase :=
  ⟨rfl, by decide⟩

/-- C9: after `issueSyncRequests` returns its result record, the iteration
treats the sync-issuance stage as failed — aborting before the slice
increment — precisely when `syncRequestErrors.length` strictly exceeds
`numSyncRequestsIssued`; when the two are equal, including both zero, the
stage succeeds and the iteration advances the slice. -/
theorem C9_sync_stage_strict_inequality (env : IterEnv) (st : SMState)
    (us : List NodeUser) (uh : List String) (pc : String → Option Nat)
    (sc : String → String → Option Nat)
    (hN : env.nodeUsers = Except.ok us) (hU : env.unhealthyPeers = Except.ok uh)
    (hS : env.secondaryClocks = Except.ok sc) (hP : env.primaryClocks = Except.ok pc) :
    (processStateMachineOperation env st).currentModuloSlice =
      if (issueSyncRequests env.syncEnqueueFails pc sc env.selfEndpoint
            (planUsers env.selfEndpoint uh (sliceUsers st.currentModuloSlice us)).2
            st).1.syncRequestErrors.length >
          (issueSyncRequests env.syncEnqueueFails pc sc env.selfEndpoint
            (planUsers env.selfEndpoint uh (sliceUsers st.currentModuloSlice us)).2
            st).1.numSyncRequestsIssued
      then st.currentModuloSlice
      else (st.currentModuloSlice + 1) % ModuloBase := by
  rw [processStateMachineOperation_slice, iterationCompletes_ok env st us uh pc sc hN hU hS hP]
  by_cases hgt :
    (issueSyncRequests env.syncEnqueueFails pc sc env.selfEndpoint
      (planUsers env.selfEndpoint uh (sliceUsers st.currentModuloSlice us)).2
      st).1.syncRequestErrors.length >
    (issueSyncRequests env.syncEnqueueFails pc sc env.selfEndpoint
      (planUsers env.selfEndpoint uh (sliceUsers st.currentModuloSlice us)).2
      st).1.numSyncRequestsIssued
  · rw [if_pos hgt]
    simp [decide_eq_true hgt]
  · rw [if_neg hgt]
    simp [decide_eq_false hgt]

/-- C9 witness: with all stages succeeding and an empty user slice, zero
errors equal zero issued syncs and the stage succeeds — the slice advances
from 3 to 4. -/
theorem C9_sync_stage_strict_inequality_witness :
    envC9.nodeUsers = Except.ok [] ∧
    (processStateMachineOperation envC9 stC9).currentModuloSlice = 4 := by
  have h := C9_sync_stage_strict_inequality envC9 stC9 [] [] (fun _ => none)
    (fun _ _ => none) rfl rfl rfl rfl
  rw [h]
  exact ⟨rfl, by decide⟩

theorem registryStep_logs (env : ReconfigEnv) (userId : Nat)
    (spIds : Option (Option Nat × Option Nat × Option Nat)) (st : SMState)
    (logs : List LogEvent) : (registryStep env userId spIds st logs).logs = logs := by
  match spIds with
  | none => rfl
  | some (a, b, c) =>
    cases h : env.registryFails <;> simp [registryStep, h]

theorem issueUpdateReplicaSetOp_logs_no_failure (env : ReconfigEnv) (userId : Nat)
    (wallet : String) (primary secondary1 secondary2 : Option String)
    (unhealthyReplicas : List String) (st : SMState) :
    ((issueUpdateReplicaSetOp env userId wallet primary secondary1 secondary2
      unhealthyReplicas st).logs).all (fun e => !(isFailureLog e)) = true := by
  unfold issueUpdateReplicaSetOp
  cases hA : env.autoselect with
  | error e => simp [isFailureLog]
  | ok rrs =>
    simp only
    split
    · split
      · simp [isFailureLog]
      · rw [registryStep_logs]
        simp [isFailureLog]
    · split
      · split
        · simp [isFailureLog]
        · rw [registryStep_logs]
          simp [isFailureLog]
      · split
        · cases hC : env.clockValues with
          | error e => simp [isFailureLog]
          | ok cm =>
            simp only
            split
            · simp [isFailureLog]
            · rw [registryStep_logs]
              simp [isFailureLog]
        · rw [registryStep_logs]
          simp [isFailureLog]

/-- C8 (amended): every error raised at any phase inside
`issueUpdateReplicaSetOp` (candidate selection, sync enqueueing, clock
fetching, or the registry write) is caught by the empty catch block and
silently swallowed — nothing about the failure is logged — and the call
returns normally, so the state-machine iteration is not aborted: whenever the
stages before the replica-set loop succeed, the slice advances regardless of
what the per-user reconfiguration environments do. -/
theorem C8_error_swallowing_amended (renv : ReconfigEnv) (userId : Nat)
    (w : String) (p s1 s2 : Option String) (unh : List String) (rst : SMState)
    (env : IterEnv) (st : SMState) (us : List NodeUser) (uh : List String)
    (pc : String → Option Nat) (sc : String → String → Option Nat)
    (hN : env.nodeUsers = Except.ok us) (hU : env.unhealthyPeers = Except.ok uh)
    (hS : env.secondaryClocks = Except.ok sc) (hP : env.primaryClocks = Except.ok pc)
    (hle : (issueSyncRequests env.syncEnqueueFails pc sc env.selfEndpoint
        (planUsers env.selfEndpoint uh (sliceUsers st.currentModuloSlice us)).2
        st).1.syncRequestErrors.length ≤
      (issueSyncRequests env.syncEnqueueFails pc sc env.selfEndpoint
        (planUsers env.selfEndpoint uh (sliceUsers st.currentModuloSlice us)).2
        st).1.numSyncRequestsIssued) :
    ((issueUpdateReplicaSetOp renv userId w p s1 s2 unh rst).logs).all
      (fun e => !(isFailureLog e)) = true ∧
    (processStateMachineOperation env st).currentModuloSlice =
      (st.currentModuloSlice + 1) % ModuloBase := by
  constructor
  · exact issueUpdateReplicaSetOp_logs_no_failure renv userId w p s1 s2 unh rst
  · rw [processStateMachineOperation_slice,
      iterationCompletes_ok env st us uh pc sc hN hU hS hP]
    have hngt : ¬ ((issueSyncRequests env.syncEnqueueFails pc sc env.selfEndpoint
        (planUsers env.selfEndpoint uh (sliceUsers st.currentModuloSlice us)).2
        st).1.syncRequestErrors.length >
      (issueSyncRequests env.syncEnqueueFails pc sc env.selfEndpoint
        (planUsers env.selfEndpoint uh (sliceUsers st.currentModuloSlice us)).2
        st).1.numSyncRequestsIssued) := not_lt.mpr hle
    simp [decide_eq_false hngt]

/-- C8 counterexample: with both secondaries unhealthy and a failing registry
write, `issueUpdateReplicaSetOp` swallows the error raised at the
`UPDATE_URSM_REPLICA_SET` phase, and its log trace contains no record of the
failure — contradicting the claim that the failure is logged. -/
theorem C8_counterexample :
    (issueUpdateReplicaSetOp envC8cex 7 "w" (some "p") (some "s1") (some "s2")
      ["s1", "s2"] stC8).errorSwallowed = some Phase.updateUrsmReplicaSet ∧
    ((issueUpdateReplicaSetOp envC8cex 7 "w" (some "p") (some "s1") (some "s2")
      ["s1", "s2"] stC8).logs).all (fun e => !(isFailureLog e)) = true :=
  ⟨rfl, rfl⟩

/-- C8 witness: the amended theorem applied to a concrete iteration whose
per-user reconfiguration environments fail at every phase; nothing failure
related is logged and the slice still advances from 2 to 3. -/
theorem C8_error_swallowing_amended_witness :
    ((issueUpdateReplicaSetOp failingReconfigEnv 1 "w" (some "p") none none []
      stC8w).logs).all (fun e => !(isFailureLog e)) = true ∧
    (processStateMachineOperation envC8w stC8w).currentModuloSlice =
      (stC8w.currentModuloSlice + 1) % ModuloBase :=
  C8_error_swallowing_amended failingReconfigEnv 1 "w" (some "p") none none []
    stC8w envC8w stC8w [] [] (fun _ => none) (fun _ _ => none) rfl rfl rfl rfl
    (by decide)

/-- C1 counterexample: with the primary clock and the secondary's reported
clock both equal to `0`, the JavaScript test `!userSecondaryClockVal` is true
(`0` is falsy), so `issueSyncRequests` does enqueue a Recurring sync —
contradicting the claim that equal clocks, including both zero, enqueue
nothing. -/
theorem C1_counterexample :
    ((issueSyncRequests (fun _ _ => false) (fun _ => some 0) (fun _ _ => some 0)
        "self" [⟨"w", "sec"⟩] stC1).2).recurringSyncQueue =
      [⟨0, "w", some "sec", some "self", SyncType.Recurring, false⟩] ∧
    (issueSyncRequests (fun _ _ => false) (fun _ => some 0) (fun _ _ => some 0)
        "self" [⟨"w", "sec"⟩] stC1).1.numSyncRequestsIssued = 1 :=
  ⟨rfl, rfl⟩

/-- C1 (amended): for a user whose primary is this node and a healthy
secondary, a Recurring sync `(immediate=false, source=self, target=s)` is
enqueued iff the secondary's reported clock is missing or zero, or the
primary clock is strictly greater than the secondary clock; for equal nonzero
clocks nothing is enqueued.  (The source treats a reported clock of `0` like
a missing one, because `0` is falsy in JavaScript.) -/
theorem C1_sync_decision_amended (pc sc : Option Nat) (w sec self : String)
    (st : SMState) (pClocks : String → Option Nat)
    (sClocks : String → String → Option Nat)
    (hp : pClocks w = pc) (hs : sClocks sec w = sc)
    (hq : dedupLookup st.dedup ⟨SyncType.Recurring, w, some sec⟩ = none) :
    (syncIsRequired pc sc = true ↔
      sc = none ∨ sc = some 0 ∨ ∃ a b, pc = some a ∧ sc = some b ∧ b < a) ∧
    (if syncIsRequired pc sc = true then
      (issueSyncRequests (fun _ _ => false) pClocks sClocks self [⟨w, sec⟩] st).2 =
        { st with
            recurringSyncQueue := st.recurringSyncQueue ++
              [⟨st.nextJobId, w, some sec, some self, SyncType.Recurring, false⟩],
            dedup := dedupRecord st.dedup ⟨SyncType.Recurring, w, some sec⟩
              st.nextJobId,
            nextJobId := st.nextJobId + 1 } ∧
      (issueSyncRequests (fun _ _ => false) pClocks sClocks self [⟨w, sec⟩]
        st).1.numSyncRequestsIssued = 1
    else
      (issueSyncRequests (fun _ _ => false) pClocks sClocks self [⟨w, sec⟩] st).2 =
        st ∧
      (issueSyncRequests (fun _ _ => false) pClocks sClocks self [⟨w, sec⟩]
        st).1.numSyncRequestsIssued = 0) := by
  constructor
  · cases pc <;> cases sc <;>
      simp [syncIsRequired, jsFalsyNum, jsGtOpt]
  · have hstep : issueSyncRequests (fun _ _ => false) pClocks sClocks self
        [⟨w, sec⟩] st =
        issueSyncRequestsStep (fun _ _ => false) pClocks sClocks self
          (⟨0, 0, []⟩, st) ⟨w, sec⟩ := rfl
    by_cases hreq : syncIsRequired pc sc = true
    · rw [if_pos hreq, hstep]
      unfold issueSyncRequestsStep
      simp only [hp, hs, hreq, if_true, Bool.false_eq_true, if_false]
      rw [enqueueSync_fresh_recurring st
        ⟨w, some self, some sec, SyncType.Recurring, false⟩ rfl hq]
      constructor <;> first | rfl | trivial
    · rw [if_neg hreq, hstep]
      unfold issueSyncRequestsStep
      simp only [hp, hs, hreq, Bool.false_eq_true, if_false]
      constructor <;> first | rfl | trivial

/-- C1 witness: the amended theorem applied with primary clock 3 and
secondary clock 1 — a sync is required and exactly one Recurring job is
appended. -/
theorem C1_sync_decision_amended_witness :
    (syncIsRequired (some 3) (some 1) = true ↔
      (some 1 : Option Nat) = none ∨ (some 1 : Option Nat) = some 0 ∨
      ∃ a b, (some 3 : Option Nat) = some a ∧ (some 1 : Option Nat) = some b ∧
        b < a) ∧
    (if syncIsRequired (some 3) (some 1) = true then
      (issueSyncRequests (fun _ _ => false) (fun _ => some 3) (fun _ _ => some 1)
        "self" [⟨"w", "sec"⟩] stC1w).2 =
        { stC1w with
            recurringSyncQueue := stC1w.recurringSyncQueue ++
              [⟨stC1w.nextJobId, "w", some "sec", some "self",
                SyncType.Recurring, false⟩],
            dedup := dedupRecord stC1w.dedup
              ⟨SyncType.Recurring, "w", some "sec"⟩ stC1w.nextJobId,
            nextJobId := stC1w.nextJobId + 1 } ∧
      (issueSyncRequests (fun _ _ => false) (fun _ => some 3) (fun _ _ => some 1)
        "self" [⟨"w", "sec"⟩] stC1w).1.numSyncRequestsIssued = 1
    else
      (issueSyncRequests (fun _ _ => false) (fun _ => some 3) (fun _ _ => some 1)
        "self" [⟨"w", "sec"⟩] stC1w).2 = stC1w ∧
      (issueSyncRequests (fun _ _ => false) (fun _ => some 3) (fun _ _ => some 1)
        "self" [⟨"w", "sec"⟩] stC1w).1.numSyncRequestsIssued = 0) :=
  C1_sync_decision_amended (some 3) (some 1) "w" "sec" "self" stC1w
    (fun _ => some 3) (fun _ _ => some 1) rfl rfl rfl

/-- C5: `additionalSyncIsRequired` returns `false` ("no additional sync
required") iff some executed poll before the monitoring deadline reports a
secondary clock `S` with `S ≥ P` — equality counts as caught up — where the
polls executed are exactly those preceded only by samples that neither fell
more than `maxExportClockValueRange` behind (which stops monitoring early
with `true`) nor caught up; transport errors are skipped and polling
continues; the deadline expiring without a caught-up sample yields `true`. -/
theorem C5_monitor_catchup_iff (P R : Nat) (polls : List PollResult) :
    additionalSyncIsRequired P R polls = false ↔
      ∃ i s, polls.get? i = some (PollResult.clockValue s) ∧ P ≤ s ∧
        ∀ j, j < i → ∀ t, polls.get? j = some (PollResult.clockValue t) →
          t < P ∧ P ≤ t + R := by
  induction polls with
  | nil =>
    constructor
    · intro h
      exact absurd h (by simp [additionalSyncIsRequired])
    · rintro ⟨i, s, hget, _, _⟩
      simp at hget
  | cons x rest ih =>
    cases x with
    | transportError =>
      have hdef : additionalSyncIsRequired P R (PollResult.transportError :: rest) =
          additionalSyncIsRequired P R rest := rfl
      rw [hdef, ih]
      constructor
      · rintro ⟨i, s, hget, hPs, hprev⟩
        refine ⟨i + 1, s, by simpa using hget, hPs, ?_⟩
        intro j hj t hjt
        cases j with
        | zero => simp at hjt
        | succ k => exact hprev k (by omega) t (by simpa using hjt)
      · rintro ⟨i, s, hget, hPs, hprev⟩
        cases i with
        | zero => simp at hget
        | succ k =>
          refine ⟨k, s, by simpa using hget, hPs, ?_⟩
          intro j hj t hjt
          exact hprev (j + 1) (by omega) t (by simpa using hjt)
    | clockValue s0 =>
      by_cases h1 : s0 + R < P
      · have hdef : additionalSyncIsRequired P R (PollResult.clockValue s0 :: rest) =
            true := by
          simp [additionalSyncIsRequired, h1]
        rw [hdef]
        constructor
        · intro h
          exact absurd h (by simp)
        · rintro ⟨i, s, hget, hPs, hprev⟩
          exfalso
          cases i with
          | zero =>
            simp at hget
            omega
          | succ k =>
            have h0 := hprev 0 (by omega) s0 (by simp)
            omega
      · by_cases h2 : P ≤ s0
        · have hdef : additionalSyncIsRequired P R (PollResult.clockValue s0 :: rest) =
              false := by
            simp [additionalSyncIsRequired, h1, h2]
          rw [hdef]
          constructor
          · intro _
            refine ⟨0, s0, by simp, h2, ?_⟩
            intro j hj t hjt
            omega
          · intro _
            rfl
        · have hdef : additionalSyncIsRequired P R (PollResult.clockValue s0 :: rest) =
              additionalSyncIsRequired P R rest := by
            simp [additionalSyncIsRequired, h1, h2]
          rw [hdef, ih]
          constructor
          · rintro ⟨i, s, hget, hPs, hprev⟩
            refine ⟨i + 1, s, by simpa using hget, hPs, ?_⟩
            intro j hj t hjt
            cases j with
            | zero =>
              simp at hjt
              omega
            | succ k => exact hprev k (by omega) t (by simpa using hjt)
          · rintro ⟨i, s, hget, hPs, hprev⟩
            cases i with
            | zero =>
              simp at hget
              omega
            | succ k =>
              refine ⟨k, s, by simpa using hget, hPs, ?_⟩
              intro j hj t hjt
              exact hprev (j + 1) (by omega) t (by simpa using hjt)

/-- C5 witness: with primary clock 5, export range 100, a transport error
followed by a sample reporting exactly 5, monitoring returns "no additional
sync required" — an equal sample counts as caught up. -/
theorem C5_monitor_catchup_iff_witness :
    additionalSyncIsRequired 5 100
      [PollResult.transportError, PollResult.clockValue 5] = false := by
  have h := C5_monitor_catchup_iff 5 100
    [PollResult.transportError, PollResult.clockValue 5]
  refine h.mpr ⟨1, 5, rfl, by omega, ?_⟩
  intro j hj t hjt
  cases j with
  | zero => simp at hjt
  | succ k => omega

/-- C6: calling `enqueueSync` for a fingerprint that currently has a pending
job returns the handle recorded in the de-duplicator and changes nothing (no
job is pushed onto either queue); and a fresh enqueue followed immediately by
a second enqueue of the same fingerprint returns the same handle, again
changing nothing. -/
theorem C6_enqueue_roundtrip (st : SMState) (p1 p2 : SyncParams)
    (hft : p2.syncType = p1.syncType) (hfw : p2.userWallet = p1.userWallet)
    (hfs : p2.secondaryEndpoint = p1.secondaryEndpoint) :
    (∀ j, dedupLookup st.dedup ⟨p1.syncType, p1.userWallet, p1.secondaryEndpoint⟩ =
        some j → enqueueSync st p1 = (j, st)) ∧
    enqueueSync (enqueueSync st p1).2 p2 =
      ((enqueueSync st p1).1, (enqueueSync st p1).2) := by
  constructor
  · intro j h
    exact enqueueSync_dup st p1 j h
  · cases h : dedupLookup st.dedup ⟨p1.syncType, p1.userWallet, p1.secondaryEndpoint⟩ with
    | some j =>
      rw [enqueueSync_dup st p1 j h]
      apply enqueueSync_dup
      rw [hft, hfw, hfs]
      exact h
    | none =>
      by_cases ht : p1.syncType = SyncType.Manual
      · rw [enqueueSync_fresh_manual st p1 ht h]
        apply enqueueSync_dup
        rw [hft, hfw, hfs]
        simp [dedupLookup_record]
      · have ht2 : p1.syncType = SyncType.Recurring := by
          cases hc : p1.syncType
          · exact absurd hc ht
          · rfl
        rw [enqueueSync_fresh_recurring st p1 ht2 h]
        apply enqueueSync_dup
        rw [hft, hfw, hfs]
        simp [dedupLookup_record]

/-- C6 witness: with the fingerprint `(Manual, "w", "sec")` already recorded
under handle 42, enqueueing returns 42 and leaves the state unchanged, and a
repeat enqueue returns the same handle and state. -/
theorem C6_enqueue_roundtrip_witness :
    enqueueSync stC6 pC6 = (42, stC6) ∧
    enqueueSync (enqueueSync stC6 pC6).2 pC6 =
      ((enqueueSync stC6 pC6).1, (enqueueSync stC6 pC6).2) := by
  have h := C6_enqueue_roundtrip stC6 pC6 pC6 rfl rfl rfl
  exact ⟨h.1 42 (by decide), h.2⟩

theorem SMInv_not_pending_of_lookup_none (st : SMState) (fp : Fingerprint)
    (h : SMInv st) (hl : dedupLookup st.dedup fp = none) :
    fp ∉ pendingFingerprints st := by
  intro hm
  have := (h.2.1 fp).mpr hm
  rw [hl] at this
  simp at this

theorem SMInv_append_manual (st : SMState) (jb : SyncJob) (n1 n2 : Nat)
    (h : SMInv st) (hjt : jb.syncType = SyncType.Manual)
    (hfresh : dedupLookup st.dedup (jobFingerprint jb) = none) :
    SMInv { manualSyncQueue := st.manualSyncQueue ++ [jb],
            recurringSyncQueue := st.recurringSyncQueue,
            dedup := dedupRecord st.dedup (jobFingerprint jb) n1,
            nextJobId := n2, currentModuloSlice := st.currentModuloSlice } := by
  obtain ⟨hnd, hcor, hman, hrec⟩ := h
  have hnm : jobFingerprint jb ∉ pendingFingerprints st :=
    SMInv_not_pending_of_lookup_none st (jobFingerprint jb) ⟨hnd, hcor, hman, hrec⟩ hfresh
  unfold pendingFingerprints pendingJobs at hnd hnm
  unfold SMInv pendingFingerprints pendingJobs
  simp only at hnd hnm ⊢
  refine ⟨?_, ?_, ?_, hrec⟩
  · rw [List.append_assoc, List.singleton_append, List.map_append, List.map_cons,
      List.nodup_middle, List.nodup_cons, ← List.map_append]
    exact ⟨hnm, hnd⟩
  · intro fp'
    rw [dedupLookup_record]
    by_cases hfp : fp' = jobFingerprint jb
    · subst hfp
      simp
    · rw [if_neg hfp]
      have hold := hcor fp'
      unfold pendingFingerprints pendingJobs at hold
      rw [hold]
      simp only [List.append_assoc, List.singleton_append, List.map_append,
        List.map_cons, List.mem_append, List.mem_cons]
      constructor
      · intro hin
        rcases hin with hin | hin
        · exact Or.inl hin
        · exact Or.inr (Or.inr hin)
      · intro hin
        rcases hin with hin | hin | hin
        · exact Or.inl hin
        · exact absurd hin hfp
        · exact Or.inr hin
  · intro j hj
    rcases List.mem_append.mp hj with hj | hj
    · exact hman j hj
    · rw [List.mem_singleton.mp hj]
      exact hjt

theorem SMInv_append_recurring (st : SMState) (jb : SyncJob) (n1 n2 : Nat)
    (h : SMInv st) (hjt : jb.syncType = SyncType.Recurring)
    (hfresh : dedupLookup st.dedup (jobFingerprint jb) = none) :
    SMInv { manualSyncQueue := st.manualSyncQueue,
            recurringSyncQueue := st.recurringSyncQueue ++ [jb],
            dedup := dedupRecord st.dedup (jobFingerprint jb) n1,
            nextJobId := n2, currentModuloSlice := st.currentModuloSlice } := by
  obtain ⟨hnd, hcor, hman, hrec⟩ := h
  have hnm : jobFingerprint jb ∉ pendingFingerprints st :=
    SMInv_not_pending_of_lookup_none st (jobFingerprint jb) ⟨hnd, hcor, hman, hrec⟩ hfresh
  unfold pendingFingerprints pendingJobs at hnd hnm
  unfold SMInv pendingFingerprints pendingJobs
  simp only at hnd hnm ⊢
  refine ⟨?_, ?_, hman, ?_⟩
  · rw [← List.append_assoc, List.map_append, List.map_singleton]
    rw [show (List.map jobFingerprint (st.manualSyncQueue ++ st.recurringSyncQueue) ++
        [jobFingerprint jb]) =
      List.map jobFingerprint (st.manualSyncQueue ++ st.recurringSyncQueue) ++
        jobFingerprint jb :: [] from rfl]
    rw [List.nodup_middle, List.nodup_cons]
    refine ⟨?_, ?_⟩
    · simpa using hnm
    · simpa using hnd
  · intro fp'
    rw [dedupLookup_record]
    by_cases hfp : fp' = jobFingerprint jb
    · subst hfp
      simp
    · rw [if_neg hfp]
      have hold := hcor fp'
      unfold pendingFingerprints pendingJobs at hold
      rw [hold]
      simp only [← List.append_assoc, List.map_append, List.map_singleton,
        List.mem_append, List.mem_singleton]
      constructor
      · intro hin
        exact Or.inl hin
      · intro hin
        rcases hin with hin | hin
        · exact hin
        · exact absurd hin hfp
  · intro j hj
    rcases List.mem_append.mp hj with hj | hj
    · exact hrec j hj
    · rw [List.mem_singleton.mp hj]
      exact hjt

theorem SMInv_enqueueSync (st : SMState) (p : SyncParams) (h : SMInv st) :
    SMInv (enqueueSync st p).2 := by
  cases hl : dedupLookup st.dedup ⟨p.syncType, p.userWallet, p.secondaryEndpoint⟩ with
  | some j =>
    rw [enqueueSync_dup st p j hl]
    exact h
  | none =>
    by_cases ht : p.syncType = SyncType.Manual
    · rw [enqueueSync_fresh_manual st p ht hl]
      exact SMInv_append_manual st
        ⟨st.nextJobId, p.userWallet, p.secondaryEndpoint, p.primaryEndpoint,
          p.syncType, p.immediate⟩ st.nextJobId (st.nextJobId + 1) h ht hl
    · have ht2 : p.syncType = SyncType.Recurring := by
        cases hc : p.syncType
        · exact absurd hc ht
        · rfl
      rw [enqueueSync_fresh_recurring st p ht2 hl]
      exact SMInv_append_recurring st
        ⟨st.nextJobId, p.userWallet, p.secondaryEndpoint, p.primaryEndpoint,
          p.syncType, p.immediate⟩ st.nextJobId (st.nextJobId + 1) h ht2 hl

theorem SMInv_activate_manual (st : SMState) (jb : SyncJob) (rest : List SyncJob)
    (hq : st.manualSyncQueue = jb :: rest) (h : SMInv st) :
    SMInv { manualSyncQueue := rest,
            recurringSyncQueue := st.recurringSyncQueue,
            dedup := dedupRemove st.dedup ⟨SyncType.Manual, jb.wallet, jb.baseURL⟩,
            nextJobId := st.nextJobId,
            currentModuloSlice := st.currentModuloSlice } := by
  obtain ⟨hnd, hcor, hman, hrec⟩ := h
  have hjt : jb.syncType = SyncType.Manual :=
    hman jb (by rw [hq]; exact List.mem_cons_self jb rest)
  have hfpj : (⟨SyncType.Manual, jb.wallet, jb.baseURL⟩ : Fingerprint) =
      jobFingerprint jb := by
    unfold jobFingerprint
    rw [hjt]
  unfold pendingFingerprints pendingJobs at hnd hcor
  rw [hq] at hnd hcor
  simp only [List.cons_append, List.map_cons, List.nodup_cons, List.mem_cons]
    at hnd hcor
  obtain ⟨hhead, htail⟩ := hnd
  unfold SMInv pendingFingerprints pendingJobs
  simp only
  refine ⟨htail, ?_, ?_, hrec⟩
  · intro fp'
    rw [hfpj, dedupLookup_remove]
    by_cases hfp : fp' = jobFingerprint jb
    · subst hfp
      rw [if_pos rfl]
      constructor
      · intro hs
        simp at hs
      · intro hm
        exact absurd hm hhead
    · rw [if_neg hfp]
      rw [hcor fp']
      constructor
      · intro hin
        rcases hin with hin | hin
        · exact absurd hin hfp
        · exact hin
      · intro hin
        exact Or.inr hin
  · intro j hj
    exact hman j (by rw [hq]; exact List.mem_cons_of_mem jb hj)

theorem SMInv_activate_recurring (st : SMState) (jb : SyncJob) (rest : List SyncJob)
    (hq : st.recurringSyncQueue = jb :: rest) (h : SMInv st) :
    SMInv { manualSyncQueue := st.manualSyncQueue,
            recurringSyncQueue := rest,
            dedup := dedupRemove st.dedup ⟨SyncType.Recurring, jb.wallet, jb.baseURL⟩,
            nextJobId := st.nextJobId,
            currentModuloSlice := st.currentModuloSlice } := by
  obtain ⟨hnd, hcor, hman, hrec⟩ := h
  have hjt : jb.syncType = SyncType.Recurring :=
    hrec jb (by rw [hq]; exact List.mem_cons_self jb rest)
  have hfpj : (⟨SyncType.Recurring, jb.wallet, jb.baseURL⟩ : Fingerprint) =
      jobFingerprint jb := by
    unfold jobFingerprint
    rw [hjt]
  unfold pendingFingerprints pendingJobs at hnd hcor
  rw [hq] at hnd hcor
  have hperm : List.Perm (st.manualSyncQueue ++ jb :: rest)
      (jb :: (st.manualSyncQueue ++ rest)) :=
    List.perm_middle
  have hnd2 : (List.map jobFingerprint (jb :: (st.manualSyncQueue ++ rest))).Nodup :=
    ((hperm.map jobFingerprint).nodup_iff).mp hnd
  simp only [List.map_cons, List.nodup_cons] at hnd2
  obtain ⟨hhead, htail⟩ := hnd2
  unfold SMInv pendingFingerprints pendingJobs
  simp only
  refine ⟨htail, ?_, hman, ?_⟩
  · intro fp'
    rw [hfpj, dedupLookup_remove]
    have hmem : ∀ x, x ∈ List.map jobFingerprint (st.manualSyncQueue ++ jb :: rest) ↔
        x ∈ jobFingerprint jb :: List.map jobFingerprint (st.manualSyncQueue ++ rest) := by
      intro x
      constructor
      · intro hx
        exact ((hperm.map jobFingerprint).mem_iff).mp hx
      · intro hx
        exact ((hperm.map jobFingerprint).mem_iff).mpr hx
    by_cases hfp : fp' = jobFingerprint jb
    · subst hfp
      rw [if_pos rfl]
      constructor
      · intro hs
        simp at hs
      · intro hm
        exact absurd hm hhead
    · rw [if_neg hfp]
      rw [hcor fp', hmem fp']
      simp only [List.mem_cons]
      constructor
      · intro hin
        rcases hin with hin | hin
        · exact absurd hin hfp
        · exact hin
      · intro hin
        exact Or.inr hin
  · intro j hj
    exact hrec j (by rw [hq]; exact List.mem_cons_of_mem jb hj)

theorem SMInv_processSyncOperation (self : String) (b : Bool) (st : SMState)
    (t : SyncType) (h : SMInv st) : SMInv (processSyncOperation self b st t) := by
  cases t with
  | Manual =>
    cases hq : st.manualSyncQueue with
    | nil =>
      unfold processSyncOperation
      rw [hq]
      exact h
    | cons jb rest =>
      unfold processSyncOperation
      rw [hq]
      have hinv2 := SMInv_activate_manual st jb rest hq h
      cases b with
      | false => simpa [runSyncJob] using hinv2
      | true =>
        simp only [runSyncJob, if_true]
        exact SMInv_enqueueSync _ _ hinv2
  | Recurring =>
    cases hq : st.recurringSyncQueue with
    | nil =>
      unfold processSyncOperation
      rw [hq]
      exact h
    | cons jb rest =>
      unfold processSyncOperation
      rw [hq]
      have hinv2 := SMInv_activate_recurring st jb rest hq h
      cases b with
      | false => simpa [runSyncJob] using hinv2
      | true =>
        simp only [runSyncJob, if_true]
        exact SMInv_enqueueSync _ _ hinv2

/-- C3: the de-duplication invariant — at most one pending sync job per
fingerprint, with the de-duplicator indexing exactly the pending
fingerprints — is preserved both by `enqueueSync` (which refuses to add a
second job for a recorded fingerprint) and by `processSyncOperation` (which
removes the fingerprint exactly when the job leaves the pending queue to run,
so a fresh pending job may coexist with the now-active one). -/
theorem C3_pending_dedup_invariant (st : SMState) (p : SyncParams) (self : String)
    (b : Bool) (t : SyncType) (h : SMInv st) :
    (∀ fp, pendingCount st fp ≤ 1) ∧
    SMInv (enqueueSync st p).2 ∧
    (∀ fp, pendingCount (enqueueSync st p).2 fp ≤ 1) ∧
    SMInv (processSyncOperation self b st t) ∧
    (∀ fp, pendingCount (processSyncOperation self b st t) fp ≤ 1) := by
  have he := SMInv_enqueueSync st p h
  have hp := SMInv_processSyncOperation self b st t h
  exact ⟨fun fp => List.nodup_iff_count_le_one.mp h.1 fp, he,
    fun fp => List.nodup_iff_count_le_one.mp he.1 fp, hp,
    fun fp => List.nodup_iff_count_le_one.mp hp.1 fp⟩

/-- C3 witness: the invariant holds of the empty state and is preserved by a
concrete enqueue and a concrete worker activation. -/
theorem C3_pending_dedup_invariant_witness :
    SMInv stC3 ∧
    ((∀ fp, pendingCount stC3 fp ≤ 1) ∧
      SMInv (enqueueSync stC3 pC3).2 ∧
      (∀ fp, pendingCount (enqueueSync stC3 pC3).2 fp ≤ 1) ∧
      SMInv (processSyncOperation "self" true stC3 SyncType.Manual) ∧
      (∀ fp, pendingCount (processSyncOperation "self" true stC3 SyncType.Manual)
        fp ≤ 1)) := by
  have hInv : SMInv stC3 := by
    refine ⟨?_, ?_, ?_, ?_⟩
    · simp [pendingFingerprints, pendingJobs, stC3]
    · intro fp
      simp [dedupLookup, pendingFingerprints, pendingJobs, stC3]
    · intro j hj
      simp [stC3] at hj
    · intro j hj
      simp [stC3] at hj
  exact ⟨hInv, C3_pending_dedup_invariant stC3 pC3 "self" true SyncType.Manual hInv⟩

/-- C10: for a user handed to `issueUpdateReplicaSetOp` with an empty
`unhealthyReplicas` list and a complete replica set, all three replicas are
healthy, no classification branch applies, and the call returns normally
having enqueued no sync job on either queue and performed no registry
update. -/
theorem C10_all_healthy_noop (env : ReconfigEnv) (userId : Nat) (w : String)
    (p s1 s2 : String) (st : SMState) :
    (issueUpdateReplicaSetOp env userId w (some p) (some s1) (some s2) [] st).st =
      st ∧
    (issueUpdateReplicaSetOp env userId w (some p) (some s1) (some s2) []
      st).registryWrite = none := by
  unfold issueUpdateReplicaSetOp
  cases hA : env.autoselect with
  | error e => exact ⟨rfl, rfl⟩
  | ok rrs =>
    simp only
    have hfil : ([some p, some s1, some s2] : List (Option String)).filter
        (fun r => !(jsSetHas [] r)) = [some p, some s1, some s2] := by
      simp [jsSetHas]
    rw [hfil]
    simp [registryStep]

/-- C7: when exactly one replica of the current set is healthy — whichever
member it is — the new replica set is `[p, r0, r1]` with the original primary
`p` as new primary, and two Manual `immediate=true` seed syncs are enqueued
with `p` as source, targeting the two freshly selected nodes `r0` and
`r1`. -/
theorem C7_one_healthy_keeps_primary (env : ReconfigEnv) (userId : Nat)
    (w p : String) (s1 s2 : Option String) (unh : List String) (st : SMState)
    (rrs : RandomReplicaSet) (hh : Option String)
    (hA : env.autoselect = Except.ok rrs)
    (hfil : ([some p, s1, s2] : List (Option String)).filter
      (fun r => !(jsSetHas unh r)) = [hh])
    (hef : ∀ t, env.enqueueFailsAt t = false)
    (hrf : env.registryFails = false)
    (hd0 : dedupLookup st.dedup ⟨SyncType.Manual, w, some rrs.primary⟩ = none)
    (hd1 : dedupLookup st.dedup ⟨SyncType.Manual, w, some rrs.secondary1⟩ = none)
    (hne : rrs.primary ≠ rrs.secondary1) :
    (issueUpdateReplicaSetOp env userId w (some p) s1 s2 unh st).registryWrite =
      some (userId, env.endpointToSPIdMap p, env.endpointToSPIdMap rrs.primary,
        env.endpointToSPIdMap rrs.secondary1) ∧
    (issueUpdateReplicaSetOp env userId w (some p) s1 s2 unh st).st.manualSyncQueue =
      st.manualSyncQueue ++
        [⟨st.nextJobId, w, some rrs.primary, some p, SyncType.Manual, true⟩,
          ⟨st.nextJobId + 1, w, some rrs.secondary1, some p, SyncType.Manual, true⟩] ∧
    (issueUpdateReplicaSetOp env userId w (some p) s1 s2 unh st).st.recurringSyncQueue =
      st.recurringSyncQueue ∧
    (issueUpdateReplicaSetOp env userId w (some p) s1 s2 unh st).errorSwallowed =
      none := by
  have e1 := enqueueSync_fresh_manual st
    ⟨w, some p, some rrs.primary, SyncType.Manual, true⟩ rfl hd0
  set st1 : SMState :=
    { manualSyncQueue := st.manualSyncQueue ++
        [⟨st.nextJobId, w, some rrs.primary, some p, SyncType.Manual, true⟩],
      recurringSyncQueue := st.recurringSyncQueue,
      dedup := dedupRecord st.dedup ⟨SyncType.Manual, w, some rrs.primary⟩
        st.nextJobId,
      nextJobId := st.nextJobId + 1,
      currentModuloSlice := st.currentModuloSlice } with hst1
  have e2 : dedupLookup st1.dedup ⟨SyncType.Manual, w, some rrs.secondary1⟩ = none := by
    rw [hst1]
    simp only
    rw [dedupLookup_record, if_neg ?neq]
    · exact hd1
    case neq =>
      intro hcontra
      apply hne
      have h3 := congrArg Fingerprint.secondaryEndpoint hcontra
      simp at h3
      exact h3.symm
  have e3 := enqueueSync_fresh_manual st1
    ⟨w, some p, some rrs.secondary1, SyncType.Manual, true⟩ rfl e2
  have e4 : tryEnqueueSyncs env.enqueueFailsAt w (some p)
      [some rrs.primary, some rrs.secondary1] st =
      ((enqueueSync st1 ⟨w, some p, some rrs.secondary1, SyncType.Manual, true⟩).2,
        false) := by
    rw [tryEnqueueSyncs, hef]
    simp only [Bool.false_eq_true, if_false, e1]
    rw [tryEnqueueSyncs, hef]
    simp only [Bool.false_eq_true, if_false]
    rfl
  unfold issueUpdateReplicaSetOp
  rw [hA]
  simp only
  rw [hfil]
  simp only [List.length_singleton, List.length_nil]
  norm_num
  rw [e4]
  simp only [e3]
  rw [registryStep]
  simp only [hrf, Bool.false_eq_true, if_false]
  refine ⟨trivial, ?_, trivial, trivial⟩
  simp [List.append_assoc]

/-- C7 witness: the sole healthy member is secondary `s1` (the primary itself
is unhealthy), yet the registry write keeps `p` as primary, and the two
Manual immediate seed syncs source from `p` towards `r0` and `r1`. -/
theorem C7_one_healthy_keeps_primary_witness :
    (issueUpdateReplicaSetOp envC7 7 "w" (some "p") (some "s1") (some "s2")
      ["p", "s2"] stC7).registryWrite =
      some (7, envC7.endpointToSPIdMap "p", envC7.endpointToSPIdMap "r0",
        envC7.endpointToSPIdMap "r1") ∧
    (issueUpdateReplicaSetOp envC7 7 "w" (some "p") (some "s1") (some "s2")
      ["p", "s2"] stC7).st.manualSyncQueue =
      stC7.manualSyncQueue ++
        [⟨stC7.nextJobId, "w", some "r0", some "p", SyncType.Manual, true⟩,
          ⟨stC7.nextJobId + 1, "w", some "r1", some "p", SyncType.Manual, true⟩] ∧
    (issueUpdateReplicaSetOp envC7 7 "w" (some "p") (some "s1") (some "s2")
      ["p", "s2"] stC7).st.recurringSyncQueue = stC7.recurringSyncQueue ∧
    (issueUpdateReplicaSetOp envC7 7 "w" (some "p") (some "s1") (some "s2")
      ["p", "s2"] stC7).errorSwallowed = none :=
  C7_one_healthy_keeps_primary envC7 7 "w" "p" (some "s1") (some "s2")
    ["p", "s2"] stC7 ⟨"r0", "r1", "r2"⟩ (some "s1") rfl (by decide)
    (fun _ => rfl) rfl rfl rfl (by decide)

theorem issueUpdateReplicaSetOp_twoHealthy_ge (env : ReconfigEnv) (userId : Nat)
    (w : String) (p s1 s2 : Option String) (unh : List String) (st : SMState)
    (rrs : RandomReplicaSet) (h0 h1 : String) (cm : String → Option Nat)
    (hA : env.autoselect = Except.ok rrs)
    (hfil : ([p, s1, s2] : List (Option String)).filter
      (fun r => !(jsSetHas unh r)) = [some h0, some h1])
    (hC : env.clockValues = Except.ok cm)
    (hge : jsGeOpt (cm h0) (cm h1) = true)
    (hef : ∀ t, env.enqueueFailsAt t = false)
    (hrf : env.registryFails = false)
    (hd0 : dedupLookup st.dedup ⟨SyncType.Manual, w, some h1⟩ = none)
    (hd1 : dedupLookup st.dedup ⟨SyncType.Manual, w, some rrs.primary⟩ = none)
    (hne : h1 ≠ rrs.primary) :
    (issueUpdateReplicaSetOp env userId w p s1 s2 unh st).registryWrite =
      some (userId, env.endpointToSPIdMap h0, env.endpointToSPIdMap h1,
        env.endpointToSPIdMap rrs.primary) ∧
    (issueUpdateReplicaSetOp env userId w p s1 s2 unh st).st.manualSyncQueue =
      st.manualSyncQueue ++
        [⟨st.nextJobId, w, some h1, some h0, SyncType.Manual, true⟩,
          ⟨st.nextJobId + 1, w, some rrs.primary, some h0, SyncType.Manual, true⟩] ∧
    (issueUpdateReplicaSetOp env userId w p s1 s2 unh st).st.recurringSyncQueue =
      st.recurringSyncQueue ∧
    (issueUpdateReplicaSetOp env userId w p s1 s2 unh st).errorSwallowed = none := by
  have e1 := enqueueSync_fresh_manual st
    ⟨w, some h0, some h1, SyncType.Manual, true⟩ rfl hd0
  set st1 : SMState :=
    { manualSyncQueue := st.manualSyncQueue ++
        [⟨st.nextJobId, w, some h1, some h0, SyncType.Manual, true⟩],
      recurringSyncQueue := st.recurringSyncQueue,
      dedup := dedupRecord st.dedup ⟨SyncType.Manual, w, some h1⟩ st.nextJobId,
      nextJobId := st.nextJobId + 1,
      currentModuloSlice := st.currentModuloSlice } with hst1
  have e2 : dedupLookup st1.dedup ⟨SyncType.Manual, w, some rrs.primary⟩ = none := by
    rw [hst1]
    simp only
    rw [dedupLookup_record, if_neg ?neq]
    · exact hd1
    case neq =>
      intro hcontra
      apply hne
      have h3 := congrArg Fingerprint.secondaryEndpoint hcontra
      simp at h3
      exact h3.symm
  have e3 := enqueueSync_fresh_manual st1
    ⟨w, some h0, some rrs.primary, SyncType.Manual, true⟩ rfl e2
  have e4 : tryEnqueueSyncs env.enqueueFailsAt w (some h0)
      [some h1, some rrs.primary] st =
      ((enqueueSync st1 ⟨w, some h0, some rrs.primary, SyncType.Manual, true⟩).2,
        false) := by
    rw [tryEnqueueSyncs, hef]
    simp only [Bool.false_eq_true, if_false, e1]
    rw [tryEnqueueSyncs, hef]
    simp only [Bool.false_eq_true, if_false]
    rfl
  unfold issueUpdateReplicaSetOp
  rw [hA]
  simp only
  rw [hfil]
  norm_num
  rw [hC]
  simp only
  simp only [hge, eq_self_iff_true, if_true]
  rw [e4]
  simp only [e3]
  rw [registryStep]
  simp only [hrf, Bool.false_eq_true, if_false]
  refine ⟨rfl, ?_, trivial, trivial⟩
  simp [List.append_assoc]

theorem issueUpdateReplicaSetOp_twoHealthy_lt (env : ReconfigEnv) (userId : Nat)
    (w : String) (p s1 s2 : Option String) (unh : List String) (st : SMState)
    (rrs : RandomReplicaSet) (h0 h1 : String) (cm : String → Option Nat)
    (hA : env.autoselect = Except.ok rrs)
    (hfil : ([p, s1, s2] : List (Option String)).filter
      (fun r => !(jsSetHas unh r)) = [some h0, some h1])
    (hC : env.clockValues = Except.ok cm)
    (hlt : jsGeOpt (cm h0) (cm h1) = false)
    (hef : ∀ t, env.enqueueFailsAt t = false)
    (hrf : env.registryFails = false)
    (hd0 : dedupLookup st.dedup ⟨SyncType.Manual, w, some h0⟩ = none)
    (hd1 : dedupLookup st.dedup ⟨SyncType.Manual, w, some rrs.primary⟩ = none)
    (hne : h0 ≠ rrs.primary) :
    (issueUpdateReplicaSetOp env userId w p s1 s2 unh st).registryWrite =
      some (userId, env.endpointToSPIdMap h1, env.endpointToSPIdMap h0,
        env.endpointToSPIdMap rrs.primary) ∧
    (issueUpdateReplicaSetOp env userId w p s1 s2 unh st).st.manualSyncQueue =
      st.manualSyncQueue ++
        [⟨st.nextJobId, w, some h0, some h1, SyncType.Manual, true⟩,
          ⟨st.nextJobId + 1, w, some rrs.primary, some h1, SyncType.Manual, true⟩] ∧
    (issueUpdateReplicaSetOp env userId w p s1 s2 unh st).st.recurringSyncQueue =
      st.recurringSyncQueue ∧
    (issueUpdateReplicaSetOp env userId w p s1 s2 unh st).errorSwallowed = none := by
  have e1 := enqueueSync_fresh_manual st
    ⟨w, some h1, some h0, SyncType.Manual, true⟩ rfl hd0
  set st1 : SMState :=
    { manualSyncQueue := st.manualSyncQueue ++
        [⟨st.nextJobId, w, some h0, some h1, SyncType.Manual, true⟩],
      recurringSyncQueue := st.recurringSyncQueue,
      dedup := dedupRecord st.dedup ⟨SyncType.Manual, w, some h0⟩ st.nextJobId,
      nextJobId := st.nextJobId + 1,
      currentModuloSlice := st.currentModuloSlice } with hst1
  have e2 : dedupLookup st1.dedup ⟨SyncType.Manual, w, some rrs.primary⟩ = none := by
    rw [hst1]
    simp only
    rw [dedupLookup_record, if_neg ?neq]
    · exact hd1
    case neq =>
      intro hcontra
      apply hne
      have h3 := congrArg Fingerprint.secondaryEndpoint hcontra
      simp at h3
      exact h3.symm
  have e3 := enqueueSync_fresh_manual st1
    ⟨w, some h1, some rrs.primary, SyncType.Manual, true⟩ rfl e2
  have e4 : tryEnqueueSyncs env.enqueueFailsAt w (some h1)
      [some h0, some rrs.primary] st =
      ((enqueueSync st1 ⟨w, some h1, some rrs.primary, SyncType.Manual, true⟩).2,
        false) := by
    rw [tryEnqueueSyncs, hef]
    simp only [Bool.false_eq_true, if_false, e1]
    rw [tryEnqueueSyncs, hef]
    simp only [Bool.false_eq_true, if_false]
    rfl
  unfold issueUpdateReplicaSetOp
  rw [hA]
  simp only
  rw [hfil]
  norm_num
  rw [hC]
  simp only
  simp only [hlt, Bool.false_eq_true, if_false]
  rw [e4]
  simp only [e3]
  rw [registryStep]
  simp only [hrf, Bool.false_eq_true, if_false]
  refine ⟨rfl, ?_, trivial, trivial⟩
  simp [List.append_assoc]

/-- C4: when exactly two replicas of the current set are healthy, the
survivor with the larger fetched clock becomes the new primary (a tie going
to the first survivor enumerated in `(p, s1, s2)` order), the other survivor
becomes the first secondary, the fresh candidate `r0` becomes the second
secondary, two Manual `immediate=true` seed syncs are enqueued with the new
primary as source targeting the other survivor and `r0`, and the chosen new
primary's clock is at least the chosen new first secondary's clock. -/
theorem C4_two_healthy_higher_clock (env : ReconfigEnv) (userId : Nat)
    (w : String) (p s1 s2 : Option String) (unh : List String) (st : SMState)
    (rrs : RandomReplicaSet) (h0 h1 : String) (c0 c1 : Nat)
    (cm : String → Option Nat)
    (hA : env.autoselect = Except.ok rrs)
    (hfil : ([p, s1, s2] : List (Option String)).filter
      (fun r => !(jsSetHas unh r)) = [some h0, some h1])
    (hC : env.clockValues = Except.ok cm)
    (hc0 : cm h0 = some c0) (hc1 : cm h1 = some c1)
    (hef : ∀ t, env.enqueueFailsAt t = false)
    (hrf : env.registryFails = false)
    (hd0 : dedupLookup st.dedup
      ⟨SyncType.Manual, w, some (if c1 ≤ c0 then h1 else h0)⟩ = none)
    (hd1 : dedupLookup st.dedup ⟨SyncType.Manual, w, some rrs.primary⟩ = none)
    (hne : (if c1 ≤ c0 then h1 else h0) ≠ rrs.primary) :
    (issueUpdateReplicaSetOp env userId w p s1 s2 unh st).registryWrite =
      some (userId, env.endpointToSPIdMap (if c1 ≤ c0 then h0 else h1),
        env.endpointToSPIdMap (if c1 ≤ c0 then h1 else h0),
        env.endpointToSPIdMap rrs.primary) ∧
    (issueUpdateReplicaSetOp env userId w p s1 s2 unh st).st.manualSyncQueue =
      st.manualSyncQueue ++
        [⟨st.nextJobId, w, some (if c1 ≤ c0 then h1 else h0),
            some (if c1 ≤ c0 then h0 else h1), SyncType.Manual, true⟩,
          ⟨st.nextJobId + 1, w, some rrs.primary,
            some (if c1 ≤ c0 then h0 else h1), SyncType.Manual, true⟩] ∧
    (issueUpdateReplicaSetOp env userId w p s1 s2 unh st).st.recurringSyncQueue =
      st.recurringSyncQueue ∧
    (issueUpdateReplicaSetOp env userId w p s1 s2 unh st).errorSwallowed = none ∧
    (∃ cp cs, cm (if c1 ≤ c0 then h0 else h1) = some cp ∧
      cm (if c1 ≤ c0 then h1 else h0) = some cs ∧ cs ≤ cp) := by
  by_cases hcc : c1 ≤ c0
  · simp only [if_pos hcc] at hd0 hne ⊢
    have hge : jsGeOpt (cm h0) (cm h1) = true := by
      rw [hc0, hc1]
      exact decide_eq_true hcc
    have h := issueUpdateReplicaSetOp_twoHealthy_ge env userId w p s1 s2 unh st
      rrs h0 h1 cm hA hfil hC hge hef hrf hd0 hd1 hne
    exact ⟨h.1, h.2.1, h.2.2.1, h.2.2.2, ⟨c0, c1, hc0, hc1, hcc⟩⟩
  · simp only [if_neg hcc] at hd0 hne ⊢
    have hlt : jsGeOpt (cm h0) (cm h1) = false := by
      rw [hc0, hc1]
      exact decide_eq_false hcc
    have h := issueUpdateReplicaSetOp_twoHealthy_lt env userId w p s1 s2 unh st
      rrs h0 h1 cm hA hfil hC hlt hef hrf hd0 hd1 hne
    exact ⟨h.1, h.2.1, h.2.2.1, h.2.2.2,
      ⟨c1, c0, hc1, hc0, le_of_lt (not_le.mp hcc)⟩⟩

/-- C4 witness: survivors `pp` (clock 5) and `ss` (clock 3) with fresh
candidate `r0`; `pp` becomes primary, `ss` first secondary, `r0` second
secondary, and the two Manual immediate seed syncs source from `pp`. -/
theorem C4_two_healthy_higher_clock_witness :
    (issueUpdateReplicaSetOp envC4 9 "w" (some "pp") (some "ss") (some "sx")
      ["sx"] stC4).registryWrite =
      some (9, envC4.endpointToSPIdMap "pp", envC4.endpointToSPIdMap "ss",
        envC4.endpointToSPIdMap "r0") ∧
    (issueUpdateReplicaSetOp envC4 9 "w" (some "pp") (some "ss") (some "sx")
      ["sx"] stC4).st.manualSyncQueue =
      stC4.manualSyncQueue ++
        [⟨stC4.nextJobId, "w", some "ss", some "pp", SyncType.Manual, true⟩,
          ⟨stC4.nextJobId + 1, "w", some "r0", some "pp", SyncType.Manual, true⟩] ∧
    (issueUpdateReplicaSetOp envC4 9 "w" (some "pp") (some "ss") (some "sx")
      ["sx"] stC4).st.recurringSyncQueue = stC4.recurringSyncQueue ∧
    (issueUpdateReplicaSetOp envC4 9 "w" (some "pp") (some "ss") (some "sx")
      ["sx"] stC4).errorSwallowed = none ∧
    (∃ cp cs, clocksC4 "pp" = some cp ∧ clocksC4 "ss" = some cs ∧ cs ≤ cp) :=
  C4_two_healthy_higher_clock envC4 9 "w" (some "pp") (some "ss") (some "sx")
    ["sx"] stC4 ⟨"r0", "r1", "r2"⟩ "pp" "ss" 5 3 clocksC4 rfl (by decide) rfl
    rfl rfl (fun _ => rfl) rfl rfl rfl (by decide)

end Snapback
